import Mathlib

/-!
Shallow embedding of the flag layer of the Aura package manager
(`src/rust/aura-pm/src/flags.rs`) and of the miscellaneous helpers
(`src/rust/aura/src/command/misc.rs`), together with proofs about the
privilege-elevation classifiers (`needs_sudo`), the language handling
(`AURA_GLOBALS`, `Args::language`) and the pacman.conf viewer
(`viewer`, `pacman_conf`).

Representation conventions:
* Rust `bool` becomes `Bool`, `u8` counters (clap `ArgAction::Count`)
  become `Nat`, `Vec<String>` becomes `List String`, `Option<T>` becomes
  `Option T`, `PathBuf` becomes `String`.
* Filesystem probing (`Path::exists`) and subprocess execution
  (`Command::status`) are modelled as explicit oracles passed in as
  function arguments, so the embedded functions stay pure and total.
-/

namespace Aura

/-- Log levels of the external `simplelog` crate (`LevelFilter`); only
carried, never inspected, by the embedded code. -/
inductive LevelFilter where
  | off
  | errorLvl
  | warn
  | info
  | debug
  | trace

/-- Language identifier of the external `unic_langid` crate
(`LanguageIdentifier`); the embedded code only ever constructs the three
constant identifiers below. -/
structure LanguageIdentifier where
  lang : String

/-- The identifier produced by the source expression `langid!("en-US")`. -/
def enUS : LanguageIdentifier := { lang := "en-US" }

/-- The identifier produced by the source expression `langid!("de-DE")`. -/
def deDE : LanguageIdentifier := { lang := "de-DE" }

/-- The identifier produced by the source expression `langid!("ja-JP")`. -/
def jaJP : LanguageIdentifier := { lang := "ja-JP" }

/-- Modelled from the spec: the `crate::Date` type (aura-pm crate, not under
`src/`), a calendar date used only by the `Log` subcommand's `--before` and
`--after` filters; its contents are never inspected by the embedded code. -/
structure Date where
  year : Nat
  month : Nat
  day : Nat

/-- Global options only applicable to Aura that must be removed from the
top-level args list before sending it to Pacman (source: `AURA_GLOBALS`,
flags.rs lines 10-12). -/
def AURA_GLOBALS : List String := ["--english", "--japanese", "--german"]

/-- Every command-line spelling that selects an output language, as declared
on the `Args` struct (flags.rs lines 26-47): the long flags `--english`,
`--japanese`, `--german` plus the clap aliases `--日本語` (of `--japanese`)
and `--deutsch` (of `--german`). -/
def LANGUAGE_SELECTOR_SPELLINGS : List String :=
  ["--english", "--japanese", "--日本語", "--german", "--deutsch"]

/-- The `-S` / `--sync` flag set (source: `struct Sync`, flags.rs). -/
structure Sync where
  clean : Nat
  nodeps : Nat
  groups : Nat
  info : List String
  list : Option String
  print : Bool
  quiet : Bool
  search : List String
  sysupgrade : Nat
  verbose : Bool
  downloadonly : List String
  refresh : Nat
  arch : Option String
  asdeps : Bool
  asexplicit : Bool
  assumed_installed : Option String
  cachedir : Option String
  color : Option String
  config : Option String
  confirm : Bool
  dbonly : Bool
  dbpath : Option String
  debug : Bool
  disable_download_timeout : Bool
  gpgdir : Option String
  hookdir : Option String
  ignore : Option String
  ignoregroup : Option String
  logfile : Option String
  needed : Bool
  noconfirm : Bool
  noprogressbar : Bool
  noscriptlet : Bool
  overwrite : Option String
  print_format : Option String
  root : Option String
  sysroot : Bool
  packages : List String

/-- Does this `-S` subflag need sudo? (source: `Sync::needs_sudo`, flags.rs
lines 277-286: `(self.info.is_empty().not() || self.search.is_empty().not()
|| self.list.is_some() || self.print).not()`). -/
def Sync.needs_sudo (s : Sync) : Bool :=
  (s.info.isEmpty.not || s.search.isEmpty.not || s.list.isSome || s.print).not

/-- The `-T` / `--deptest` flag set (source: `struct DepTest`, flags.rs). -/
structure DepTest where
  verbose : Bool
  arch : Option String
  color : Option String
  config : Option String
  confirm : Bool
  dbpath : Option String
  debug : Bool
  disable_download_timeout : Bool
  gpgdir : Option String
  hookdir : Option String
  logfile : Option String
  noconfirm : Bool
  root : Option String
  sysroot : Bool
  packages : List String

/-- The `-U` / `--upgrade` flag set (source: `struct Upgrade`, flags.rs). -/
structure Upgrade where
  nodeps : Bool
  print : Bool
  verbose : Bool
  arch : Option String
  asdeps : Bool
  asexplicit : Bool
  assumed_installed : Option String
  color : Option String
  config : Option String
  confirm : Bool
  dbonly : Bool
  dbpath : Option String
  debug : Bool
  disable_download_timeout : Bool
  gpgdir : Option String
  hookdir : Option String
  ignore : Option String
  ignoregroup : Option String
  logfile : Option String
  needed : Bool
  noconfirm : Bool
  noprogressbar : Bool
  noscriptlet : Bool
  overwrite : Option String
  print_format : Option String
  root : Option String
  sysroot : Bool
  packages : List String

/-- Does this `-U` subflag need sudo? (source: `Upgrade::needs_sudo`,
flags.rs lines 432-437: `self.print.not()`). -/
def Upgrade.needs_sudo (u : Upgrade) : Bool :=
  u.print.not

/-- The `-F` / `--files` flag set (source: `struct Files`, flags.rs). -/
structure Files where
  list : Bool
  quiet : Bool
  verbose : Bool
  regex : Bool
  refresh : Nat
  arch : Option String
  color : Option String
  config : Option String
  confirm : Bool
  debug : Bool
  dbpath : Option String
  disable_download_timeout : Bool
  gpgdir : Option String
  hookdir : Option String
  logfile : Option String
  machinereadable : Bool
  noconfirm : Bool
  root : Option String
  sysroot : Bool
  files : List String

/-- Does this `-F` subflag need sudo? (source: `Files::needs_sudo`, flags.rs
lines 506-510: `self.refresh > 0`). -/
def Files.needs_sudo (f : Files) : Bool :=
  decide (f.refresh > 0)

/-- The `-R` / `--remove` flag set (source: `struct Remove`, flags.rs). -/
structure Remove where
  cascade : Bool
  nodeps : Bool
  nosave : Bool
  print : Bool
  recursive : Bool
  unneeded : Bool
  verbose : Bool
  arch : Option String
  assumed_installed : Option String
  cachedir : Option String
  color : Option String
  config : Option String
  confirm : Bool
  dbonly : Bool
  dbpath : Option String
  debug : Bool
  disable_download_timeout : Bool
  gpgdir : Option String
  hookdir : Option String
  logfile : Option String
  noconfirm : Bool
  noprogressbar : Bool
  noscriptlet : Bool
  print_format : Option String
  root : Option String
  sysroot : Bool
  packages : List String

/-- Does this `-R` subflag need sudo? (source: `Remove::needs_sudo`, flags.rs
lines 598-603: `self.print.not()`). -/
def Remove.needs_sudo (r : Remove) : Bool :=
  r.print.not

/-- The `-D` / `--database` flag set (source: `struct Database`, flags.rs). -/
structure Database where
  check : Nat
  quiet : Bool
  verbose : Bool
  arch : Option String
  asdeps : Bool
  asexplicit : Bool
  color : Option String
  config : Option String
  confirm : Bool
  dbpath : Option String
  debug : Bool
  disable_download_timeout : Bool
  gpgdir : Option String
  hookdir : Option String
  logfile : Option String
  noconfirm : Bool
  root : Option String
  sysroot : Bool
  packages : List String

/-- Does this `-D` subflag need sudo? (source: `Database::needs_sudo`,
flags.rs lines 667-671: `self.asdeps || self.asexplicit`). -/
def Database.needs_sudo (d : Database) : Bool :=
  d.asdeps || d.asexplicit

/-- The `-Q` / `--query` flag set (source: `struct Query`, flags.rs). -/
structure Query where
  changelog : Bool
  deps : Bool
  explicit : Bool
  groups : Bool
  info : Bool
  check : Nat
  list : Bool
  foreign : Bool
  native : Bool
  owns : Option String
  file : Option String
  quiet : Bool
  search : Bool
  unrequired : Bool
  upgrades : Bool
  verbose : Bool
  arch : Option String
  cachedir : Option String
  color : Option String
  config : Option String
  confirm : Bool
  debug : Bool
  dbpath : Option String
  disable_download_timeout : Bool
  gpgdir : Option String
  hookdir : Option String
  logfile : Option String
  noconfirm : Bool
  root : Option String
  sysroot : Bool
  packages : List String

/-- The `-P` / `--analysis` flag set (source: `struct Analysis`, flags.rs;
declared but not a `SubCmd` variant). -/
structure Analysis where
  file : Option String
  dir : Option String
  audit : Bool

/-- The `-O` / `--orphans` flag set (source: `struct Orphans`, flags.rs). -/
structure Orphans where
  adopt : List String
  abandon : Bool
  elderly : Bool

/-- The `conf` flag set (source: `struct Conf`, flags.rs). -/
structure Conf where
  config : Option String
  pacman : Bool
  aura : Bool
  makepkg : Bool
  pacnew : Bool
  gen : Bool

/-- The `-L` / `--viewlog` flag set (source: `struct Log`, flags.rs). -/
structure Log where
  info : List String
  search : Option String
  before : Option Date
  after : Option Date
  logfile : Option String

/-- The `stats` flag set (source: `struct Stats`, flags.rs). -/
structure Stats where
  lang : Bool
  groups : Bool
  heavy : Bool

/-- The `home` flag set (source: `struct Home`, flags.rs; fieldless). -/
structure Home

/-- The `-A` / `--aursync` flag set (source: `struct Aur`, flags.rs). The
source field `open` is a Lean keyword and is rendered `open_`. -/
structure Aur where
  info : List String
  search : List String
  abc : Bool
  limit : Option Nat
  reverse : Bool
  quiet : Bool
  open_ : Option String
  pkgbuild : Option String
  hotedit : Bool
  diff : Bool
  delmakedeps : Bool
  sysupgrade : Bool
  git : Bool
  ignore : List String
  wclone : List String
  unsuppress : Bool
  refresh : Bool
  noconfirm : Bool
  packages : List String

/-- The `-B` / `--backup` flag set (source: `struct Backup`, flags.rs). -/
structure Backup where
  list : Bool
  clean : Bool
  restore : Bool

/-- The `-C` / `--cache` flag set (source: `struct Cache`, flags.rs). -/
structure Cache where
  search : Option String
  backup : Option String
  clean : Option Nat
  clean_unsaved : Bool
  info : List String
  list : Bool
  refresh : Bool
  invalid : Bool
  missing : Bool
  packages : List String

/-- The `open` flag set (source: `struct Open`, flags.rs). -/
structure Open where
  docs : Bool
  repo : Bool
  bug : Bool
  license : Bool
  aur : Bool

/-- The `deps` flag set (source: `struct Deps`, flags.rs). -/
structure Deps where
  reverse : Bool
  optional : Bool
  limit : Option Nat
  packages : List String

/-- The `check` flag set (source: `struct Check`, flags.rs; fieldless). -/
structure Check

/-- The Pacman/Aura subcommand to run (source: `enum SubCmd`, flags.rs;
the `Open` variant is rendered `open_` since `open` is a Lean keyword). -/
inductive SubCmd where
  | database (d : Database)
  | files (f : Files)
  | query (q : Query)
  | remove (r : Remove)
  | sync (s : Sync)
  | depTest (t : DepTest)
  | upgrade (u : Upgrade)
  | aur (a : Aur)
  | backup (b : Backup)
  | cache (c : Cache)
  | log (l : Log)
  | orphans (o : Orphans)
  | check (c : Check)
  | conf (c : Conf)
  | deps (d : Deps)
  | home (h : Home)
  | open_ (o : Open)
  | stats (s : Stats)

/-- Commandline arguments to the Aura executable (source: `struct Args`,
flags.rs lines 25-56). -/
structure Args where
  english : Bool
  japanese : Bool
  german : Bool
  log_level : Option LevelFilter
  subcmd : SubCmd

/-- If a language flag was given on the command line, extract the
corresponding standardized language code (source: `Args::language`,
flags.rs lines 58-69, a guard chain trying `english`, then `german`,
then `japanese`). -/
def Args.language (a : Args) : Option LanguageIdentifier :=
  if a.english then some enUS
  else if a.german then some deDE
  else if a.japanese then some jaJP
  else none

/-- Expected location of the `bat` executable if installed from official
repos (source: `const BAT`, misc.rs line 9). -/
def BAT : String := "/bin/bat"

/-- Expected location of the `less` executable (source: `const LESS`,
misc.rs line 12). -/
def LESS : String := "/bin/less"

/-- Modelled from the spec: the `PacConf` flag struct of the aura crate's
flags module (not under `src/`); per `pacman_conf`'s use of
`pc.config.unwrap_or(..)` it carries the optional alternate pacman
configuration file path. -/
structure PacConf where
  config : Option String

/-- Modelled from the spec: `aura_arch::DEFAULT_PAC_CONF` (aura-arch crate,
not under `src/`), the default pacman configuration path; no claim depends
on its exact value. -/
def DEFAULT_PAC_CONF : String := "/etc/pacman.conf"

/-- Modelled from the spec: `crate::error::Error` of the aura crate (not
under `src/`); only its `IO` constructor (here `ioErr`), wrapping a spawn
failure, is reachable from `pacman_conf`. -/
inductive Error where
  | ioErr (e : String)

/-- A subprocess invocation: the program and the arguments handed to
`std::process::Command` (program from `Command::new`, arguments accumulated
by `.arg` calls). -/
structure Command where
  program : String
  args : List String

/-- The exit status of a finished subprocess (`std::process::ExitStatus`),
reduced to its code. -/
structure ExitStatus where
  code : Int

/-- A complete path to a file viewer program like `less` (source: `viewer`,
misc.rs lines 29-34). The filesystem probe `Path::new("/bin/bat").exists()`
is modelled by the oracle `fs`, which answers whether a path exists. -/
def viewer (fs : String → Bool) : String :=
  if fs BAT then BAT else LESS

/-- Open the pacman.conf in `bat` or `less` (source: `pacman_conf`, misc.rs
lines 14-20). Subprocess execution is modelled by the oracle `status`,
which maps the spawned invocation to either its exit status or a spawn
error; the pair returned exposes both the invocation the code performs and
the `Result` the source function returns (`.map_err(Error::IO)?` then
`Ok(())`). -/
def pacman_conf (fs : String → Bool) (status : Command → Except String ExitStatus)
    (pc : PacConf) : Command × Except Error Unit :=
  let conf := pc.config.getD DEFAULT_PAC_CONF
  let prog := viewer fs
  let cmd : Command := { program := prog, args := [conf] }
  match status cmd with
  | Except.ok _ => (cmd, Except.ok ())
  | Except.error e => (cmd, Except.error (Error.ioErr e))

/-- The `Sync` value clap produces when no `-S` flags are given at all:
every boolean false, every counter zero, every list empty, every option
absent. -/
def Sync.defaults : Sync :=
  { clean := 0, nodeps := 0, groups := 0, info := [], list := none,
    print := false, quiet := false, search := [], sysupgrade := 0,
    verbose := false, downloadonly := [], refresh := 0, arch := none,
    asdeps := false, asexplicit := false, assumed_installed := none,
    cachedir := none, color := none, config := none, confirm := false,
    dbonly := false, dbpath := none, debug := false,
    disable_download_timeout := false, gpgdir := none, hookdir := none,
    ignore := none, ignoregroup := none, logfile := none, needed := false,
    noconfirm := false, noprogressbar := false, noscriptlet := false,
    overwrite := none, print_format := none, root := none, sysroot := false,
    packages := [] }

/-- The `Upgrade` value clap produces when no `-U` flags are given. -/
def Upgrade.defaults : Upgrade :=
  { nodeps := false, print := false, verbose := false, arch := none,
    asdeps := false, asexplicit := false, assumed_installed := none,
    color := none, config := none, confirm := false, dbonly := false,
    dbpath := none, debug := false, disable_download_timeout := false,
    gpgdir := none, hookdir := none, ignore := none, ignoregroup := none,
    logfile := none, needed := false, noconfirm := false,
    noprogressbar := false, noscriptlet := false, overwrite := none,
    print_format := none, root := none, sysroot := false, packages := [] }

/-- The `Files` value clap produces when no `-F` flags are given. -/
def Files.defaults : Files :=
  { list := false, quiet := false, verbose := false, regex := false,
    refresh := 0, arch := none, color := none, config := none,
    confirm := false, debug := false, dbpath := none,
    disable_download_timeout := false, gpgdir := none, hookdir := none,
    logfile := none, machinereadable := false, noconfirm := false,
    root := none, sysroot := false, files := [] }

/-- The `Remove` value clap produces when no `-R` flags are given. -/
def Remove.defaults : Remove :=
  { cascade := false, nodeps := false, nosave := false, print := false,
    recursive := false, unneeded := false, verbose := false, arch := none,
    assumed_installed := none, cachedir := none, color := none,
    config := none, confirm := false, dbonly := false, dbpath := none,
    debug := false, disable_download_timeout := false, gpgdir := none,
    hookdir := none, logfile := none, noconfirm := false,
    noprogressbar := false, noscriptlet := false, print_format := none,
    root := none, sysroot := false, packages := [] }

/-- The `Database` value clap produces when no `-D` flags are given. -/
def Database.defaults : Database :=
  { check := 0, quiet := false, verbose := false, arch := none,
    asdeps := false, asexplicit := false, color := none, config := none,
    confirm := false, dbpath := none, debug := false,
    disable_download_timeout := false, gpgdir := none, hookdir := none,
    logfile := none, noconfirm := false, root := none, sysroot := false,
    packages := [] }

/-- C1: For the Remove subcommand, `needs_sudo` returns true exactly when
`--print` is not set, for every combination of the other Remove flags; in
particular the print-only Remove value returns false and the all-defaults
Remove value returns true. -/
theorem remove_needs_sudo_iff_not_print :
    (∀ r : Remove, r.needs_sudo = true ↔ r.print = false) ∧
    ({ Remove.defaults with print := true } : Remove).needs_sudo = false ∧
    Remove.defaults.needs_sudo = true := by
  refine ⟨fun r => ?_, rfl, rfl⟩
  cases hp : r.print <;> simp [Remove.needs_sudo, hp]

/-- C2 counterexample: the concrete Sync value with `--asdeps` and `--print`
set (and everything else at its default) has a mutating flag set, yet
`Sync.needs_sudo` returns false, refuting the claim that a mutating flag
forces true even when `--print` is also given. -/
theorem sync_mutating_flag_with_print_counterexample :
    ({ Sync.defaults with asdeps := true, print := true } : Sync).asdeps = true ∧
    ({ Sync.defaults with asdeps := true, print := true } : Sync).print = true ∧
    ({ Sync.defaults with asdeps := true, print := true } : Sync).needs_sudo = false :=
  ⟨rfl, rfl, rfl⟩

/-- C2 amended: a Sync value with a mutating flag set (`--asdeps`,
`--asexplicit`, or a positive `--refresh` count) has `needs_sudo` true
provided none of the query/print flags `--info`, `--search`, `--list`,
`--print` is given; those flags, when present, dominate and force false. -/
theorem sync_mutating_needs_sudo_without_query_flags :
    ∀ s : Sync, (s.asdeps = true ∨ s.asexplicit = true ∨ 0 < s.refresh) →
      s.info = [] → s.search = [] → s.list = none → s.print = false →
      s.needs_sudo = true := by
  intro s _ hi hs hl hp
  simp [Sync.needs_sudo, hi, hs, hl, hp]

/-- C2 amended, witness: the Sync value with only `--asdeps` set needs
sudo. -/
theorem sync_mutating_needs_sudo_without_query_flags_witness :
    ({ Sync.defaults with asdeps := true } : Sync).needs_sudo = true :=
  sync_mutating_needs_sudo_without_query_flags _ (Or.inl rfl) rfl rfl rfl rfl

/-- C3 counterexample: the all-defaults Sync and Remove values (no flag
set at all) both have `needs_sudo` true, refuting the claim that every
classifier-bearing subcommand defaults to false. -/
theorem sync_remove_default_needs_sudo_counterexample :
    Sync.defaults.needs_sudo = true ∧ Remove.defaults.needs_sudo = true :=
  ⟨rfl, rfl⟩

/-- C3 amended: with every flag at its default, Database and Files report
`needs_sudo` false, while Sync, Remove and Upgrade report true (their
default operation installs or removes packages). -/
theorem default_flags_needs_sudo_values :
    Database.defaults.needs_sudo = false ∧
    Files.defaults.needs_sudo = false ∧
    Sync.defaults.needs_sudo = true ∧
    Remove.defaults.needs_sudo = true ∧
    Upgrade.defaults.needs_sudo = true :=
  ⟨rfl, rfl, rfl, rfl, rfl⟩

/-- C4: query-only or print-only flag combinations never require elevation:
a Sync value with non-empty `--info` or `--search`, or with `--list` or
`--print` given, and any Upgrade or Remove value with `--print` set, all
have `needs_sudo` false. -/
theorem query_print_flags_never_need_sudo :
    (∀ s : Sync,
      (s.info ≠ [] ∨ s.search ≠ [] ∨ s.list.isSome = true ∨ s.print = true) →
      s.needs_sudo = false) ∧
    (∀ u : Upgrade, u.print = true → u.needs_sudo = false) ∧
    (∀ r : Remove, r.print = true → r.needs_sudo = false) := by
  refine ⟨fun s h => ?_, fun u h => by simp [Upgrade.needs_sudo, h],
    fun r h => by simp [Remove.needs_sudo, h]⟩
  rcases h with h | h | h | h <;> simp [Sync.needs_sudo, h]

/-- C4 witness: concrete instances — Sync with one `--info` package,
Upgrade with `--print`, Remove with `--print` — all avoid sudo. -/
theorem query_print_flags_never_need_sudo_witness :
    ({ Sync.defaults with info := ["gcc"] } : Sync).needs_sudo = false ∧
    ({ Upgrade.defaults with print := true } : Upgrade).needs_sudo = false ∧
    ({ Remove.defaults with print := true } : Remove).needs_sudo = false :=
  ⟨query_print_flags_never_need_sudo.1 _ (Or.inl (by simp)),
   query_print_flags_never_need_sudo.2.1 _ rfl,
   query_print_flags_never_need_sudo.2.2 _ rfl⟩

/-- C5: `Database.needs_sudo` is true exactly when `--asdeps` or
`--asexplicit` is set (so with neither set it is false whatever the other
Database flags, `--check` count included), and `Files.needs_sudo` is true
exactly when the `--refresh` count is positive. -/
theorem database_files_needs_sudo_characterization :
    (∀ d : Database, d.needs_sudo = true ↔ (d.asdeps = true ∨ d.asexplicit = true)) ∧
    (∀ f : Files, f.needs_sudo = true ↔ 0 < f.refresh) := by
  constructor
  · intro d
    simp [Database.needs_sudo]
  · intro f
    simp [Files.needs_sudo]

/-- C6: every `needs_sudo` classifier (Sync, Upgrade, Files, Remove,
Database) is deterministic — equal flag structures give equal booleans —
and total — it returns a boolean on every flag combination — and its
result depends on nothing beyond the flag structure: it is invariant under
change of every flag field it does not consult. -/
theorem needs_sudo_pure_total_deterministic :
    (∀ a b : Sync, a = b → a.needs_sudo = b.needs_sudo) ∧
    (∀ a b : Upgrade, a = b → a.needs_sudo = b.needs_sudo) ∧
    (∀ a b : Files, a = b → a.needs_sudo = b.needs_sudo) ∧
    (∀ a b : Remove, a = b → a.needs_sudo = b.needs_sudo) ∧
    (∀ a b : Database, a = b → a.needs_sudo = b.needs_sudo) ∧
    (∀ s : Sync, s.needs_sudo = true ∨ s.needs_sudo = false) ∧
    (∀ u : Upgrade, u.needs_sudo = true ∨ u.needs_sudo = false) ∧
    (∀ f : Files, f.needs_sudo = true ∨ f.needs_sudo = false) ∧
    (∀ r : Remove, r.needs_sudo = true ∨ r.needs_sudo = false) ∧
    (∀ d : Database, d.needs_sudo = true ∨ d.needs_sudo = false) ∧
    (∀ a b : Sync, a.info = b.info → a.search = b.search → a.list = b.list →
      a.print = b.print → a.needs_sudo = b.needs_sudo) ∧
    (∀ a b : Upgrade, a.print = b.print → a.needs_sudo = b.needs_sudo) ∧
    (∀ a b : Files, a.refresh = b.refresh → a.needs_sudo = b.needs_sudo) ∧
    (∀ a b : Remove, a.print = b.print → a.needs_sudo = b.needs_sudo) ∧
    (∀ a b : Database, a.asdeps = b.asdeps → a.asexplicit = b.asexplicit →
      a.needs_sudo = b.needs_sudo) := by
  refine ⟨fun a b h => h ▸ rfl, fun a b h => h ▸ rfl, fun a b h => h ▸ rfl,
    fun a b h => h ▸ rfl, fun a b h => h ▸ rfl,
    fun s => Bool.eq_false_or_eq_true _,
    fun u => Bool.eq_false_or_eq_true _,
    fun f => Bool.eq_false_or_eq_true _,
    fun r => Bool.eq_false_or_eq_true _,
    fun d => Bool.eq_false_or_eq_true _,
    fun a b h1 h2 h3 h4 => ?_, fun a b h => ?_, fun a b h => ?_,
    fun a b h => ?_, fun a b h1 h2 => ?_⟩
  · simp [Sync.needs_sudo, h1, h2, h3, h4]
  · simp [Upgrade.needs_sudo, h]
  · simp [Files.needs_sudo, h]
  · simp [Remove.needs_sudo, h]
  · simp [Database.needs_sudo, h1, h2]

/-- C6 witness: determinism applied to the default Sync value, and
irrelevance of the `--verbose` field to the Sync decision at a concrete
pair of values differing only in `verbose`. -/
theorem needs_sudo_pure_total_deterministic_witness :
    Sync.defaults.needs_sudo = Sync.defaults.needs_sudo ∧
    Sync.defaults.needs_sudo =
      ({ Sync.defaults with verbose := true } : Sync).needs_sudo :=
  ⟨needs_sudo_pure_total_deterministic.1 Sync.defaults Sync.defaults rfl,
   needs_sudo_pure_total_deterministic.2.2.2.2.2.2.2.2.2.2.1
     Sync.defaults { Sync.defaults with verbose := true } rfl rfl rfl rfl⟩

/-- C7: the canonical long flags `--english`, `--japanese`, `--german` are
in `AURA_GLOBALS`, but the declared alias spellings `--deutsch` and
`--日本語` are not, so stripping `AURA_GLOBALS` does not remove every
language-selector spelling from the forwarded arguments. -/
theorem aura_globals_missing_alias_spellings :
    ("--english" ∈ AURA_GLOBALS ∧ "--japanese" ∈ AURA_GLOBALS ∧
      "--german" ∈ AURA_GLOBALS) ∧
    "--deutsch" ∉ AURA_GLOBALS ∧ "--日本語" ∉ AURA_GLOBALS ∧
    ¬ (∀ x ∈ LANGUAGE_SELECTOR_SPELLINGS, x ∈ AURA_GLOBALS) := by
  decide

/-- C8: `Args.language` is some identifier exactly when at least one of the
`english`, `german`, `japanese` flags is set, with fixed precedence
english (en-US) over german (de-DE) over japanese (ja-JP), and none with
all three unset. -/
theorem args_language_precedence :
    ∀ a : Args,
      ((a.language).isSome = true ↔
        (a.english = true ∨ a.german = true ∨ a.japanese = true)) ∧
      (a.english = true → a.language = some enUS) ∧
      (a.english = false → a.german = true → a.language = some deDE) ∧
      (a.english = false → a.german = false → a.japanese = true →
        a.language = some jaJP) ∧
      (a.english = false → a.german = false → a.japanese = false →
        a.language = none) := by
  intro a
  refine ⟨?_, fun he => by simp [Args.language, he],
    fun he hg => by simp [Args.language, he, hg],
    fun he hg hj => by simp [Args.language, he, hg, hj],
    fun he hg hj => by simp [Args.language, he, hg, hj]⟩
  cases he : a.english <;> cases hg : a.german <;> cases hj : a.japanese <;>
    simp [Args.language, he, hg, hj]

/-- C8 witness: with only the japanese flag set, the selected language is
ja-JP; with no flag set it is none. -/
theorem args_language_precedence_witness :
    ({ english := false, japanese := true, german := false, log_level := none,
       subcmd := SubCmd.home {} } : Args).language = some jaJP ∧
    ({ english := false, japanese := false, german := false, log_level := none,
       subcmd := SubCmd.home {} } : Args).language = none :=
  ⟨(args_language_precedence _).2.2.2.1 rfl rfl rfl,
   (args_language_precedence _).2.2.2.2 rfl rfl rfl⟩

/-- C9: `viewer` is total — for every filesystem oracle it returns exactly
one of the two constant paths — and it returns `/bin/bat` exactly when the
oracle says `/bin/bat` exists, `/bin/less` otherwise. -/
theorem viewer_total_and_correct :
    ∀ fs : String → Bool,
      (viewer fs = BAT ∨ viewer fs = LESS) ∧
      (viewer fs = BAT ↔ fs BAT = true) ∧
      (viewer fs = LESS ↔ fs BAT = false) := by
  intro fs
  have hne : BAT ≠ LESS := by decide
  cases h : fs BAT
  · have hv : viewer fs = LESS := by simp [viewer, h]
    exact ⟨Or.inr hv,
      ⟨fun hb => absurd (hv.symm.trans hb).symm hne,
       fun ht => absurd ht (by decide)⟩,
      ⟨fun _ => rfl, fun _ => hv⟩⟩
  · have hv : viewer fs = BAT := by simp [viewer, h]
    exact ⟨Or.inl hv,
      ⟨fun _ => rfl, fun _ => hv⟩,
      ⟨fun hl => absurd (hv.symm.trans hl) hne,
       fun hf => absurd hf (by decide)⟩⟩

/-- C10: `pacman_conf` invokes the viewer on exactly one argument — the
caller-supplied config path when given, `DEFAULT_PAC_CONF` otherwise — and
returns ok whenever the subprocess ran (whatever its exit status), and an
`Error.ioErr` exactly when spawning failed. -/
theorem pacman_conf_invocation_and_result :
    ∀ (fs : String → Bool) (status : Command → Except String ExitStatus)
      (pc : PacConf),
      ((pacman_conf fs status pc).1.args = [pc.config.getD DEFAULT_PAC_CONF]) ∧
      (∀ p, pc.config = some p → (pacman_conf fs status pc).1.args = [p]) ∧
      (pc.config = none →
        (pacman_conf fs status pc).1.args = [DEFAULT_PAC_CONF]) ∧
      (∀ es, status (Command.mk (viewer fs) [pc.config.getD DEFAULT_PAC_CONF]) =
          Except.ok es →
        (pacman_conf fs status pc).2 = Except.ok ()) ∧
      (∀ e, status (Command.mk (viewer fs) [pc.config.getD DEFAULT_PAC_CONF]) =
          Except.error e →
        (pacman_conf fs status pc).2 = Except.error (Error.ioErr e)) := by
  intro fs status pc
  refine ⟨?_, fun p hp => ?_, fun hp => ?_, fun es hs => ?_, fun e hs => ?_⟩
  · simp only [pacman_conf]
    cases status (Command.mk (viewer fs) [pc.config.getD DEFAULT_PAC_CONF]) <;> rfl
  · simp only [pacman_conf, hp, Option.getD_some]
    cases status (Command.mk (viewer fs) [p]) <;> rfl
  · simp only [pacman_conf, hp, Option.getD_none]
    cases status (Command.mk (viewer fs) [DEFAULT_PAC_CONF]) <;> rfl
  · simp [pacman_conf, hs]
  · simp [pacman_conf, hs]

/-- C10 witness: with an always-existing-bat filesystem, a subprocess that
runs and exits with the failing status 1, and no caller-supplied path, the
invocation's argument list is exactly the default config path and the
result is ok despite the non-zero exit. -/
theorem pacman_conf_invocation_and_result_witness :
    (pacman_conf (fun _ => true) (fun _ => Except.ok { code := 1 })
      { config := none }).1.args = [DEFAULT_PAC_CONF] ∧
    (pacman_conf (fun _ => true) (fun _ => Except.ok { code := 1 })
      { config := none }).2 = Except.ok () :=
  ⟨(pacman_conf_invocation_and_result (fun _ => true)
      (fun _ => Except.ok { code := 1 }) { config := none }).2.2.1 rfl,
   (pacman_conf_invocation_and_result (fun _ => true)
      (fun _ => Except.ok { code := 1 }) { config := none }).2.2.2.1
      { code := 1 } rfl⟩

end Aura
